import Mathlib

/-!
Verification of the UsernameMenu component
(src/frontend/src/components/UsernameMenu.tsx).

The component is a pure render function over the ambient authentication
state exposed by the identity provider hook. We embed the JSX tree as an
inductive render tree whose event handlers are traces of calls into the
identity provider, and prove the documented observable properties.
-/

/-- View of the authenticated user as exposed by the identity provider:
the email attribute is optional (it may not have resolved yet). -/
structure UserView where
  email : Option String
deriving DecidableEq, Repr

/-- Ambient authentication state read via the identity provider hook.
The user object itself may be absent (unauthenticated / not yet loaded). -/
structure AuthState where
  user : Option UserView
deriving DecidableEq, Repr

/-- A call the component can make into the identity provider from an
event handler. The logoutCall constructor records the number of
arguments passed to the logout capability; setUser represents a write
to the provider's user state (a capability the component never uses,
included so that its absence is provable). -/
inductive ProviderCall where
  | logoutCall (argCount : Nat)
  | setUser (u : Option UserView)
deriving DecidableEq, Repr

/-- An event handler is the sequence of provider calls one activation of
the handler performs. -/
abbrev Handler := List ProviderCall

/-- Render tree for the JSX the component produces. Each constructor is
one of the elements appearing in the source file; className strings are
carried verbatim. -/
inductive Node where
  | text (s : String)
  | icon (iconName className : String)
  | link (toRoute className : String) (children : List Node)
  | button (onClick : Handler) (className : String) (children : List Node)
  | dropdownMenu (children : List Node)
  | dropdownMenuTrigger (className : String) (children : List Node)
  | dropdownMenuContent (children : List Node)
  | dropdownMenuItem (children : List Node)
  | separator
deriving Repr

/-- Embedding of the optional-chaining read user?.email: total on every
auth state, yielding none when the user object or its email is absent. -/
def emailOf (s : AuthState) : Option String :=
  s.user.bind UserView.email

/-- Embedding of rendering an optional string inside JSX: an undefined
value renders nothing, a string value renders a text node. -/
def renderOptionalText : Option String → List Node
  | some e => [Node.text e]
  | none => []

/-- Shallow embedding of the UsernameMenu component: a deterministic
function of the ambient auth state, mirroring the JSX of the source
element by element. The Logout button's onClick handler is the arrow
function calling logout with no arguments, embedded as the one-call
trace with argument count zero. -/
def UsernameMenu (s : AuthState) : Node :=
  Node.dropdownMenu [
    Node.dropdownMenuTrigger
      "flex items-center px-3 font-bold hover:text-orange-500 gap-2 outline-none"
      (Node.icon "CircleUserRound" "text-orange-500" ::
        renderOptionalText (emailOf s)),
    Node.dropdownMenuContent [
      Node.dropdownMenuItem [
        Node.link "/user-profile" "font-bold hover:text-orange-500"
          [Node.text "User Profile"]],
      Node.separator,
      Node.dropdownMenuItem [
        Node.button [ProviderCall.logoutCall 0] "flex flex-1 font-bold bg-orange-500"
          [Node.text "Logout"]]]]

/-- Children of the first dropdownMenuTrigger among a list of nodes. -/
def findTrigger : List Node → Option (List Node)
  | [] => none
  | Node.dropdownMenuTrigger _ cs :: _ => some cs
  | _ :: rest => findTrigger rest

/-- The trigger element's children in a rendered dropdown menu. -/
def triggerChildrenOf : Node → List Node
  | Node.dropdownMenu cs => (findTrigger cs).getD []
  | _ => []

/-- Children of the first dropdownMenuContent among a list of nodes. -/
def findContent : List Node → Option (List Node)
  | [] => none
  | Node.dropdownMenuContent cs :: _ => some cs
  | _ :: rest => findContent rest

/-- The dropdown menu content's children in a rendered dropdown menu. -/
def menuContentOf : Node → List Node
  | Node.dropdownMenu cs => (findContent cs).getD []
  | _ => []

mutual

/-- All event handlers attached anywhere in a render tree. -/
def handlersOf : Node → List Handler
  | Node.text _ => []
  | Node.icon _ _ => []
  | Node.separator => []
  | Node.link _ _ cs => handlersOfList cs
  | Node.button h _ cs => h :: handlersOfList cs
  | Node.dropdownMenu cs => handlersOfList cs
  | Node.dropdownMenuTrigger _ cs => handlersOfList cs
  | Node.dropdownMenuContent cs => handlersOfList cs
  | Node.dropdownMenuItem cs => handlersOfList cs

/-- All event handlers attached anywhere in a list of render trees. -/
def handlersOfList : List Node → List Handler
  | [] => []
  | n :: rest => handlersOf n ++ handlersOfList rest

end

/-- An interactive entry of the menu: a link with its navigation target
and label, or a button with its label. -/
inductive InteractiveEntry where
  | linkEntry (target label : String)
  | buttonEntry (label : String)
deriving DecidableEq, Repr

/-- The label of an element whose children are a single text node. -/
def labelOf : List Node → String
  | [Node.text s] => s
  | _ => ""

mutual

/-- All interactive entries (links and buttons) anywhere in a render
tree, in document order. -/
def entriesOf : Node → List InteractiveEntry
  | Node.text _ => []
  | Node.icon _ _ => []
  | Node.separator => []
  | Node.link t _ cs => InteractiveEntry.linkEntry t (labelOf cs) :: entriesOfList cs
  | Node.button _ _ cs => InteractiveEntry.buttonEntry (labelOf cs) :: entriesOfList cs
  | Node.dropdownMenu cs => entriesOfList cs
  | Node.dropdownMenuTrigger _ cs => entriesOfList cs
  | Node.dropdownMenuContent cs => entriesOfList cs
  | Node.dropdownMenuItem cs => entriesOfList cs

/-- All interactive entries anywhere in a list of render trees. -/
def entriesOfList : List Node → List InteractiveEntry
  | [] => []
  | n :: rest => entriesOf n ++ entriesOfList rest

end

/-- The navigation target of the unique interactive entry labeled
User Profile in the rendered menu's content, when there is exactly one
such entry and it is a link. -/
def profileLinkTarget (n : Node) : Option String :=
  match (entriesOfList (menuContentOf n)).filterMap (fun e =>
    match e with
    | InteractiveEntry.linkEntry t l => if l = "User Profile" then some t else none
    | InteractiveEntry.buttonEntry _ => none) with
  | [t] => some t
  | _ => none

/-- Semantics of running a handler's provider calls against the ambient
auth state. The effect of the external logout capability is abstract
(any function on states); a setUser call overwrites the user state. -/
def runCalls (logoutEffect : AuthState → AuthState) :
    List ProviderCall → AuthState → AuthState
  | [], st => st
  | ProviderCall.logoutCall _ :: rest, st => runCalls logoutEffect rest (logoutEffect st)
  | ProviderCall.setUser u :: rest, _ => runCalls logoutEffect rest ⟨u⟩

/-- Modelled from the spec: the interaction events the external dropdown
primitive responds to. The primitive itself (the styled dropdown under
frontend/src/components/ui) is not part of the provided sources; the
spec delegates open/close behavior entirely to it. -/
inductive MenuEvent where
  | triggerInteract
  | outsideInteract
  | itemSelect
deriving DecidableEq, Repr

/-- Modelled from the spec: the dropdown menu is closed by default. -/
def menuInitOpen : Bool := false

/-- Modelled from the spec: the dropdown opens on trigger interaction
and closes on outside interaction or on selection of a menu item. -/
def menuStep (_ : Bool) : MenuEvent → Bool
  | MenuEvent.triggerInteract => true
  | MenuEvent.outsideInteract => false
  | MenuEvent.itemSelect => false

/-- The open state of the dropdown after a sequence of interaction
events, starting from the default state. -/
def menuRun (evs : List MenuEvent) : Bool :=
  evs.foldl menuStep menuInitOpen

/-- The handlers collected over the rendering of an optional email text
are empty: a text node carries no handler and an absent email renders
nothing. -/
theorem handlersOfList_renderOptionalText (o : Option String) :
    handlersOfList (renderOptionalText o) = [] := by
  cases o <;> rfl

/-- In every render of UsernameMenu, the complete list of event handlers
is the single Logout click handler, and it performs exactly one logout
call with zero arguments. -/
theorem handlersOf_usernameMenu (s : AuthState) :
    handlersOf (UsernameMenu s) = [[ProviderCall.logoutCall 0]] := by
  rcases h : emailOf s with _ | e <;>
    simp [UsernameMenu, h, renderOptionalText, handlersOf, handlersOfList]

/-- C1: in every render, the only event handler in the whole tree is the
Logout button's click handler, and that handler invokes the external
logout function exactly once, passing it no arguments; no other part of
the render holds any handler, hence none invokes logout. -/
theorem usernameMenu_logout_once (s : AuthState) :
    handlersOf (UsernameMenu s) = [[ProviderCall.logoutCall 0]] :=
  handlersOf_usernameMenu s

/-- C2: for every authenticated user whose email is the defined string
e, the trigger element rendered by UsernameMenu contains the text e. -/
theorem usernameMenu_trigger_shows_email (s : AuthState) (u : UserView) (e : String)
    (hu : s.user = some u) (he : u.email = some e) :
    Node.text e ∈ triggerChildrenOf (UsernameMenu s) := by
  have hmail : emailOf s = some e := by simp [emailOf, hu, he]
  simp [UsernameMenu, triggerChildrenOf, findTrigger, hmail, renderOptionalText]

/-- Witness for C2 at the spec's example email address. -/
theorem usernameMenu_trigger_shows_email_witness :
    Node.text "a@b.com" ∈ triggerChildrenOf (UsernameMenu ⟨some ⟨some "a@b.com"⟩⟩) :=
  usernameMenu_trigger_shows_email ⟨some ⟨some "a@b.com"⟩⟩ ⟨some "a@b.com"⟩
    "a@b.com" rfl rfl

/-- C3: in every render, the dropdown menu content contains exactly two
interactive entries: a link labeled User Profile followed by a button
labeled Logout, and no other interactive entry anywhere in the
content. -/
theorem usernameMenu_exactly_two_entries (s : AuthState) :
    entriesOfList (menuContentOf (UsernameMenu s)) =
      [InteractiveEntry.linkEntry "/user-profile" "User Profile",
       InteractiveEntry.buttonEntry "Logout"] := rfl

/-- C4: in every render, the User Profile menu entry is a router link
whose navigation target is exactly the fixed client-side path
/user-profile. -/
theorem usernameMenu_profile_link_target (s : AuthState) :
    profileLinkTarget (UsernameMenu s) = some "/user-profile" := rfl

/-- C5: whenever the user object is absent or its email is undefined,
the render is the well-defined tree whose trigger holds only the icon:
the optional access is total and the trigger contains no text node. -/
theorem usernameMenu_renders_without_email (s : AuthState)
    (h : s.user = none ∨ ∃ u, s.user = some u ∧ u.email = none) :
    triggerChildrenOf (UsernameMenu s) = [Node.icon "CircleUserRound" "text-orange-500"]
    ∧ ∀ t, Node.text t ∉ triggerChildrenOf (UsernameMenu s) := by
  have hmail : emailOf s = none := by
    rcases h with h | ⟨u, hu, he⟩
    · simp [emailOf, h]
    · simp [emailOf, hu, he]
  constructor
  · simp [UsernameMenu, triggerChildrenOf, findTrigger, hmail, renderOptionalText]
  · intro t
    simp [UsernameMenu, triggerChildrenOf, findTrigger, hmail, renderOptionalText]

/-- Witness for C5 at the absent-user state. -/
theorem usernameMenu_renders_without_email_witness :
    triggerChildrenOf (UsernameMenu ⟨none⟩) = [Node.icon "CircleUserRound" "text-orange-500"]
    ∧ ∀ t, Node.text t ∉ triggerChildrenOf (UsernameMenu ⟨none⟩) :=
  usernameMenu_renders_without_email ⟨none⟩ (Or.inl rfl)

/-- C6: the component never writes the identity provider's user state:
its render depends on the auth state only through the read of
user?.email, every handler it installs is exactly the single logout
call, and running any installed handler changes the ambient state by
exactly the external logout effect and nothing else. -/
theorem usernameMenu_identity_frame (s : AuthState) :
    (∀ s', emailOf s = emailOf s' → UsernameMenu s = UsernameMenu s')
    ∧ (∀ h, h ∈ handlersOf (UsernameMenu s) → h = [ProviderCall.logoutCall 0])
    ∧ (∀ h, h ∈ handlersOf (UsernameMenu s) →
        ∀ lf st, runCalls lf h st = lf st) := by
  refine ⟨?_, ?_, ?_⟩
  · intro s' h
    simp only [UsernameMenu, h]
  · intro h hh
    rw [handlersOf_usernameMenu] at hh
    simpa using hh
  · intro h hh lf st
    rw [handlersOf_usernameMenu] at hh
    have hh2 : h = [ProviderCall.logoutCall 0] := by simpa using hh
    rw [hh2]
    rfl

/-- Witness for C6: two states with the same email render identically,
and running the Logout handler from the absent-user state applies
exactly the logout effect. -/
theorem usernameMenu_identity_frame_witness :
    UsernameMenu ⟨none⟩ = UsernameMenu ⟨some ⟨none⟩⟩
    ∧ runCalls id [ProviderCall.logoutCall 0] ⟨none⟩ = id ⟨none⟩ :=
  ⟨(usernameMenu_identity_frame ⟨none⟩).1 ⟨some ⟨none⟩⟩ rfl,
   (usernameMenu_identity_frame ⟨none⟩).2.2 [ProviderCall.logoutCall 0]
     (by rw [handlersOf_usernameMenu]; exact List.mem_singleton.mpr rfl) id ⟨none⟩⟩

/-- C7: the rendered output is a deterministic function of the ambient
auth state alone, and re-rendering with a changed email yields a trigger
containing the new email text. -/
theorem usernameMenu_deterministic (s1 s2 : AuthState) :
    (s1 = s2 → UsernameMenu s1 = UsernameMenu s2)
    ∧ (∀ e, emailOf s2 = some e →
        Node.text e ∈ triggerChildrenOf (UsernameMenu s2)) := by
  constructor
  · intro h
    rw [h]
  · intro e he
    simp [UsernameMenu, triggerChildrenOf, findTrigger, he, renderOptionalText]

/-- Witness for C7: determinism at a concrete state, and a re-render
from the empty state to a state with a new email shows the new text. -/
theorem usernameMenu_deterministic_witness :
    UsernameMenu ⟨some ⟨some "a@b.com"⟩⟩ = UsernameMenu ⟨some ⟨some "a@b.com"⟩⟩
    ∧ Node.text "x@y.org" ∈ triggerChildrenOf (UsernameMenu ⟨some ⟨some "x@y.org"⟩⟩) :=
  ⟨(usernameMenu_deterministic ⟨some ⟨some "a@b.com"⟩⟩ ⟨some ⟨some "a@b.com"⟩⟩).1 rfl,
   (usernameMenu_deterministic ⟨none⟩ ⟨some ⟨some "x@y.org"⟩⟩).2 "x@y.org" rfl⟩

/-- C8: the dropdown is closed by default, opens on trigger interaction,
closes on outside interaction and on item selection, and after any event
sequence ending in an item selection it is not open. -/
theorem usernameMenu_menu_lifecycle :
    menuInitOpen = false
    ∧ (∀ b, menuStep b MenuEvent.triggerInteract = true)
    ∧ (∀ b, menuStep b MenuEvent.outsideInteract = false)
    ∧ (∀ b, menuStep b MenuEvent.itemSelect = false)
    ∧ (∀ evs, menuRun (evs ++ [MenuEvent.itemSelect]) = false) := by
  refine ⟨rfl, fun b => rfl, fun b => rfl, fun b => rfl, fun evs => ?_⟩
  simp [menuRun, List.foldl_append, menuStep]

/-- C9 counterexample: the User Profile entry is not a bare link without
a route target; its navigation target is present (the explicit path
/user-profile) already in the unauthenticated render. -/
theorem usernameMenu_bare_link_counterexample :
    profileLinkTarget (UsernameMenu ⟨none⟩) ≠ none := by
  have h : profileLinkTarget (UsernameMenu ⟨none⟩) = some "/user-profile" := rfl
  rw [h]
  exact Option.some_ne_none _

/-- C9 amended: the User Profile entry is a router link with the
explicit route target /user-profile, and it carries no route guard for
unauthenticated users: every auth state, the unauthenticated one
included, renders the identical menu content containing that link. -/
theorem usernameMenu_link_target_unguarded (s : AuthState) :
    profileLinkTarget (UsernameMenu s) = some "/user-profile"
    ∧ menuContentOf (UsernameMenu s) = menuContentOf (UsernameMenu ⟨none⟩) :=
  ⟨rfl, rfl⟩

/-- C10: every auth state, an absent or unresolved user included,
renders the identical menu content: the User Profile link item, the
separator, and the Logout button item, in that order; only the trigger
text depends on the user value. -/
theorem usernameMenu_content_invariant (s : AuthState) :
    menuContentOf (UsernameMenu s) =
      [Node.dropdownMenuItem [
         Node.link "/user-profile" "font-bold hover:text-orange-500"
           [Node.text "User Profile"]],
       Node.separator,
       Node.dropdownMenuItem [
         Node.button [ProviderCall.logoutCall 0] "flex flex-1 font-bold bg-orange-500"
           [Node.text "Logout"]]] := rfl
